import Mathlib

/-!
# Pedalboard `Current` plugin wrapper: preset loading

A shallow embedding of `pedalboard/plugins/Current.h`.

`Current::loadMinimalAudioCurrentPreset` reads a preset file, reads the state of the
hosted plugin, moves two nodes of that state into the preset's XML tree, and writes the
result back as the plugin's new state.  The XML tree operations it calls are those of
`juce::XmlElement`; they are embedded here on an explicit tree type.  The file system, the
binary XML codec and the base64 codec are taken as parameters (`Juce`), and so is the hosted
plugin (`PluginApi`).  Tag names are matched as `juce::XmlElement::hasTagName` matches
them, ignoring letter case; attribute names are matched exactly.
-/

namespace Pedalboard

/-! ## `juce::String::equalsIgnoreCase` -/

/-- The comparison loop of `juce::CharacterFunctions::compareIgnoreCase`, as the test that
it finds no difference: the two texts are walked together, two characters agree when
they are equal or have the same upper case, and both texts must end together. -/
def equalsIgnoreCaseList (toUpperCase : Char → Char) : List Char → List Char → Bool
  | [], [] => true
  | c :: cs, d :: ds =>
    (c == d || toUpperCase c == toUpperCase d) && equalsIgnoreCaseList toUpperCase cs ds
  | _, _ => false

/-- Comparison `a.equalsIgnoreCase (b)`, over the character map
`juce::CharacterFunctions::toUpperCase`. -/
def equalsIgnoreCase (toUpperCase : Char → Char) (a b : String) : Bool :=
  equalsIgnoreCaseList toUpperCase a.data b.data

/-! ## `juce::XmlElement`

The tree type of the JUCE library and those of its member functions that `Current.h`
calls.  JUCE is a dependency of the repository; the definitions below follow what the
library's implementation does on the element's two linked lists (attribute nodes and
child elements). -/

/-- An XML element as `juce::XmlElement` stores it: a tag name, the list of attribute
nodes (name and value, in document order) and the list of child elements.  A text node is
an element with an empty tag name whose content is the value of its attribute `text`.
The attribute nodes form a plain linked list: the XML reader appends one node for each
attribute it reads, so nothing prevents a name from occurring twice. -/
inductive XmlElement where
  | mk (tagName : String) (attributes : List (String × String))
      (children : List XmlElement)

namespace XmlElement

/-- Tag name of the element (`getTagName`). -/
def tagName : XmlElement → String
  | mk t _ _ => t

/-- Attribute nodes of the element, in order. -/
def attributes : XmlElement → List (String × String)
  | mk _ a _ => a

/-- Child elements, in order. -/
def children : XmlElement → List XmlElement
  | mk _ _ c => c

/-- Tag name test used by the child lookup (`hasTagName`): it returns
`tagName.equalsIgnoreCase (possibleTagName)`; the assertion that the two agree in case is
compiled out of release builds and stops nothing. -/
def hasTagName (toUpperCase : Char → Char) (e : XmlElement) (possibleTagName : String) :
    Bool :=
  equalsIgnoreCase toUpperCase e.tagName possibleTagName

/-- The first child whose tag name passes `hasTagName`, `none` standing for the null
pointer. -/
def getChildByName (toUpperCase : Char → Char) (e : XmlElement) (childName : String) :
    Option XmlElement :=
  e.children.find? (fun c => c.hasTagName toUpperCase childName)

/-- Value of the first attribute with the given name, the empty string when there is
none (`getStringAttribute`).  Attribute names are compared exactly. -/
def getStringAttribute (e : XmlElement) (attributeName : String) : String :=
  match e.attributes.find? (fun a => a.1 == attributeName) with
  | some a => a.2
  | none => ""

/-- Attribute list after `setAttribute`: the first node with that name gets the new
value; when the end of the list is reached without a match a new node is appended. -/
def setAttributeList (attributeName value : String) :
    List (String × String) → List (String × String)
  | [] => [(attributeName, value)]
  | a :: rest =>
    if a.1 == attributeName then (a.1, value) :: rest
    else a :: setAttributeList attributeName value rest

/-- Mutation `setAttribute (name, value)`. -/
def setAttribute (e : XmlElement) (attributeName value : String) : XmlElement :=
  mk e.tagName (setAttributeList attributeName value e.attributes) e.children

/-- Attribute list after `removeAttribute`: the loop unlinks the first node with that
name and stops. -/
def removeAttributeList (attributeName : String) :
    List (String × String) → List (String × String)
  | [] => []
  | a :: rest =>
    if a.1 == attributeName then rest
    else a :: removeAttributeList attributeName rest

/-- Mutation `removeAttribute (name)`. -/
def removeAttribute (e : XmlElement) (attributeName : String) : XmlElement :=
  mk e.tagName (removeAttributeList attributeName e.attributes) e.children

/-- Mutation `addChildElement (newNode)`: the node is appended to the child list. -/
def addChildElement (e newNode : XmlElement) : XmlElement :=
  mk e.tagName e.attributes (e.children ++ [newNode])

/-- Child list after unlinking the node that `getChildByName childName` points to. -/
def removeFirstNamed (toUpperCase : Char → Char) (childName : String) :
    List XmlElement → List XmlElement
  | [] => []
  | c :: rest =>
    if c.hasTagName toUpperCase childName then rest
    else c :: removeFirstNamed toUpperCase childName rest

/-- Mutation `removeChildElement (p, false)` for `p` the pointer returned by
`getChildByName childName`: that child is unlinked, nothing is deleted. -/
def removeChildElement (toUpperCase : Char → Char) (e : XmlElement) (childName : String) :
    XmlElement :=
  mk e.tagName e.attributes (removeFirstNamed toUpperCase childName e.children)

/-- Child list after a mutation `f` applied through the pointer that
`getChildByName childName` returns: the child that the lookup finds is replaced in
place. -/
def updateFirstNamed (toUpperCase : Char → Char) (childName : String)
    (f : XmlElement → XmlElement) : List XmlElement → List XmlElement
  | [] => []
  | c :: rest =>
    if c.hasTagName toUpperCase childName then f c :: rest
    else c :: updateFirstNamed toUpperCase childName f rest

/-- The element after a mutation `f` of the child that `getChildByName childName`
finds. -/
def updateChildByName (toUpperCase : Char → Char) (e : XmlElement) (childName : String)
    (f : XmlElement → XmlElement) : XmlElement :=
  mk e.tagName e.attributes (updateFirstNamed toUpperCase childName f e.children)

/-- A text node (`createTextElement`): empty tag name, content in attribute `text`. -/
def createTextElement (text : String) : XmlElement :=
  mk "" [("text", text)] []

/-- A text node is recognised by its empty tag name (`isTextElement`). -/
def isTextElement (e : XmlElement) : Bool :=
  e.tagName.isEmpty

mutual
/-- Text of the element (`getAllSubText`): the content of a text node; for an element
with a single child the text of that child; otherwise the texts of all children,
concatenated. -/
def getAllSubText : XmlElement → String
  | mk t a cs =>
    if t.isEmpty then (mk t a cs).getStringAttribute "text"
    else match cs with
      | [c] => getAllSubText c
      | cs => getAllSubTextList cs
/-- Concatenated texts of a child list. -/
def getAllSubTextList : List XmlElement → String
  | [] => ""
  | c :: cs => getAllSubText c ++ getAllSubTextList cs
end

end XmlElement

/-! ## The surroundings of `Current` -/

/-- The parts of the JUCE library that `loadMinimalAudioCurrentPreset` calls besides the
tree operations, over an arbitrary type `β` of memory blocks.  Their code is not part of
`Current.h`, so they are parameters of the embedding. -/
structure Juce (β : Type) where
  /-- Upper case of a character, `juce::CharacterFunctions::toUpperCase` (the
  platform's `towupper`). -/
  toUpperCase : Char → Char
  /-- Whether the file at a path exists: `juce::File::exists`. -/
  fileExists : String → Bool
  /-- Parsing the file at a path, `none` for the null pointer: `juce::parseXML`. -/
  parseXML : String → Option XmlElement
  /-- Decoder `juce::AudioProcessor::getXmlFromBinary`, `none` for the null pointer. -/
  getXmlFromBinary : β → Option XmlElement
  /-- Encoder `juce::AudioProcessor::copyXmlToBinary`. -/
  copyXmlToBinary : XmlElement → β
  /-- Decoder `juce::MemoryBlock::fromBase64Encoding`, as the block it leaves behind. -/
  fromBase64Encoding : String → β
  /-- Encoder `juce::MemoryBlock::toBase64Encoding`. -/
  toBase64Encoding : β → String

/-- The two calls made on `pluginInstance`, for a plugin instance of type `π`. -/
structure PluginApi (β π : Type) where
  /-- The block that `getStateInformation` fills in; the call reads the instance and
  leaves it as it is. -/
  getStateInformation : π → β
  /-- The plugin instance after `setStateInformation`. -/
  setStateInformation : π → β → π

/-- A call made on `pluginInstance`. -/
inductive PluginCall (β : Type) where
  | getState
  | setState (data : β)
  deriving DecidableEq

/-- How a call of `loadMinimalAudioCurrentPreset` ends. -/
inductive Outcome where
  /-- Normal return. -/
  | returned
  /-- A `std::invalid_argument` with this message was thrown. -/
  | invalidArgument (what : String)
  /-- A `std::runtime_error` with this message was thrown. -/
  | runtimeError (what : String)
  /-- A member function was called through a null pointer: undefined behaviour (in
  practice the process crashes), no exception is thrown. -/
  | nullDereference
  deriving DecidableEq

/-- An instance of class `Current`: the plugin path it was constructed from and the
hosted plugin instance it inherits from `ExternalPlugin`. -/
structure Current (π : Type) where
  pluginPath : String
  pluginInstance : π

/-- What a call of `loadMinimalAudioCurrentPreset` leaves behind: how it ended, the object
afterwards, and the calls it made on `pluginInstance`, in order. -/
structure Run (β π : Type) where
  outcome : Outcome
  self : Current π
  calls : List (PluginCall β)

/-- The element `finalXML` built around the base64 text of the new state:
`VST3PluginState` with one new child `IComponent` holding one text node. -/
def finalXML (text : String) : XmlElement :=
  XmlElement.mk "VST3PluginState" []
    [XmlElement.mk "IComponent" [] [XmlElement.createTextElement text]]

/-- Method `Current::loadMinimalAudioCurrentPreset`. -/
def Current.loadMinimalAudioCurrentPreset {β π : Type} (J : Juce β) (P : PluginApi β π)
    (self : Current π)
    (inPresetPath inPresetName inPresetUUID inPresetPackName : String) : Run β π :=
  if !J.fileExists inPresetPath then
    ⟨.invalidArgument ("Preset file does not exists: " ++ inPresetPath), self, []⟩
  else
  match J.parseXML inPresetPath with
  | none => ⟨.runtimeError ("Preset file corrupted: " ++ inPresetPath), self, []⟩
  | some presetXml =>
  -- Get Current's current state
  let data := P.getStateInformation self.pluginInstance
  -- Remove the vst3 stuff around it
  match J.getXmlFromBinary data with
  | none => ⟨.runtimeError "Unexpected VST3 state structure.", self, [.getState]⟩
  | some vst3State =>
  match vst3State.getChildByName J.toUpperCase "IComponent" with
  | none =>
    ⟨.runtimeError "Unexpected VST3 state structure (IComponent).", self, [.getState]⟩
  | some vst3State_child =>
  -- Get actual Current current state
  let mem := J.fromBase64Encoding vst3State_child.getAllSubText
  match J.getXmlFromBinary mem with
  | none => ⟨.runtimeError "Could not read Current state.", self, [.getState]⟩
  | some currentState =>
  match currentState.getChildByName J.toUpperCase "SessionInfo" with
  | none =>
    ⟨.runtimeError "Error when loading Minimal Audio Current preset: No sessionInfoXml",
      self, [.getState]⟩
  | some sessionInfoXml =>
  match currentState.getChildByName J.toUpperCase "session_preset_meta" with
  | none =>
    ⟨.runtimeError "Error when loading Minimal Audio Current preset: No sessionPresetMeta",
      self, [.getState]⟩
  | some sessionPresetMeta =>
  -- the two nodes are unlinked from the local tree, which is not used afterwards
  let _currentState :=
    (currentState.removeChildElement J.toUpperCase "SessionInfo").removeChildElement
      J.toUpperCase "session_preset_meta"
  -- Modify session_preset_meta
  let sessionPresetMeta := sessionPresetMeta.setAttribute "preset_file_path" inPresetPath
  let sessionPresetMeta := sessionPresetMeta.setAttribute "preset_file_name" inPresetName
  let sessionPresetMeta := sessionPresetMeta.setAttribute "preset_file_pack" inPresetPackName
  let sessionPresetMeta := sessionPresetMeta.setAttribute "preset_file_uid" inPresetUUID
  -- Remove tag from preset Meta
  match presetXml.getChildByName J.toUpperCase "Meta" with
  | none => ⟨.nullDereference, self, [.getState]⟩
  | some _ =>
  let presetXml :=
    presetXml.updateChildByName J.toUpperCase "Meta" (fun m => m.removeAttribute "TAGS")
  let presetXml := presetXml.addChildElement sessionInfoXml
  let presetXml := presetXml.addChildElement sessionPresetMeta
  let newState := J.copyXmlToBinary presetXml
  -- Wrap new state into VST3 specific stuffs
  let finalState := J.copyXmlToBinary (finalXML (J.toBase64Encoding newState))
  ⟨.returned,
    Current.mk self.pluginPath (P.setStateInformation self.pluginInstance finalState),
    [.getState, .setState finalState]⟩

/-- Method `Current::acceptsAudioInput`. -/
def Current.acceptsAudioInput {π : Type} (_self : Current π) : Bool := false

/-! ## Reading and writing the state blob

The two directions of the state format, as `loadMinimalAudioCurrentPreset` performs them
inline; they are named here to state properties of the blobs it reads and writes. -/

/-- The steps by which the method reads the inner state out of a state blob: XML from
binary, child `IComponent`, base64 decoding of its text, XML from binary. -/
def decodeState {β : Type} (J : Juce β) (data : β) : Option XmlElement :=
  match J.getXmlFromBinary data with
  | none => none
  | some vst3State =>
    match vst3State.getChildByName J.toUpperCase "IComponent" with
    | none => none
    | some vst3State_child =>
      J.getXmlFromBinary (J.fromBase64Encoding vst3State_child.getAllSubText)

/-- The steps by which the method turns an inner state into a state blob: binary
encoding, base64 text inside `finalXML`, binary encoding. -/
def encodeState {β : Type} (J : Juce β) (inner : XmlElement) : β :=
  J.copyXmlToBinary (finalXML (J.toBase64Encoding (J.copyXmlToBinary inner)))

/-- The tree that `presetXml` holds when it is encoded into `newState`, in terms of the
parsed preset and of the two nodes found in the live state. -/
def presetXmlAtEncoding (toUpperCase : Char → Char)
    (presetXml sessionInfoXml sessionPresetMeta : XmlElement)
    (inPresetPath inPresetName inPresetUUID inPresetPackName : String) : XmlElement :=
  ((presetXml.updateChildByName toUpperCase "Meta"
    (fun m => m.removeAttribute "TAGS")).addChildElement sessionInfoXml).addChildElement
    ((((sessionPresetMeta.setAttribute "preset_file_path" inPresetPath).setAttribute
      "preset_file_name" inPresetName).setAttribute
      "preset_file_pack" inPresetPackName).setAttribute "preset_file_uid" inPresetUUID)

/-- Each decoder inverts its encoder. -/
def Juce.DecodersInvertEncoders {β : Type} (J : Juce β) : Prop :=
  (∀ x : XmlElement, J.getXmlFromBinary (J.copyXmlToBinary x) = some x) ∧
  (∀ b : β, J.fromBase64Encoding (J.toBase64Encoding b) = b)

/-- The attribute names that `loadMinimalAudioCurrentPreset` sets. -/
def presetFileAttributes : List String :=
  ["preset_file_path", "preset_file_name", "preset_file_pack", "preset_file_uid"]

/-- Number of attribute nodes of an element that carry a given name. -/
def XmlElement.countAttribute (e : XmlElement) (attributeName : String) : Nat :=
  e.attributes.countP (fun a => a.1 == attributeName)

/-! ## A concrete environment

A small file system, an invertible binary XML codec over lists of characters and a
plugin that keeps the last block it was given.  Used to run the method on concrete
inputs. -/

namespace Example

/-- A number in unary, closed by `0`. -/
def encNat (n : Nat) : List Char := List.replicate n '1' ++ ['0']

/-- Reader for `encNat`. -/
def decNat : List Char → Option (Nat × List Char)
  | [] => none
  | c :: cs =>
    if c = '0' then some (0, cs)
    else match decNat cs with
      | some (n, r) => some (n + 1, r)
      | none => none

/-- A string as its length followed by its characters. -/
def encStr (s : String) : List Char := encNat s.length ++ s.data

/-- Reader for `encStr`. -/
def decStr (l : List Char) : Option (String × List Char) :=
  match decNat l with
  | some (n, r) => some (String.mk (r.take n), r.drop n)
  | none => none

/-- An attribute list: `1` before each node, `0` at the end. -/
def encAttrs : List (String × String) → List Char
  | [] => ['0']
  | a :: as => '1' :: (encStr a.1 ++ encStr a.2 ++ encAttrs as)

/-- Reader for `encAttrs`, with a bound on the number of steps. -/
def decAttrs : Nat → List Char → Option (List (String × String) × List Char)
  | 0, _ => none
  | _ + 1, [] => none
  | f + 1, c :: l =>
    if c = '0' then some ([], l)
    else match decStr l with
      | none => none
      | some (k, l) =>
        match decStr l with
        | none => none
        | some (v, l) =>
          match decAttrs f l with
          | none => none
          | some (as, l) => some ((k, v) :: as, l)

mutual
/-- An element: tag name, attributes, children. -/
def enc : XmlElement → List Char
  | .mk t a cs => encStr t ++ encAttrs a ++ encChildren cs
/-- A child list: `1` before each child, `0` at the end. -/
def encChildren : List XmlElement → List Char
  | [] => ['0']
  | c :: cs => '1' :: (enc c ++ encChildren cs)
end

mutual
/-- Reader for `enc`, with a bound on the number of steps. -/
def dec : Nat → List Char → Option (XmlElement × List Char)
  | 0, _ => none
  | f + 1, l =>
    match decStr l with
    | none => none
    | some (t, l) =>
      match decAttrs f l with
      | none => none
      | some (a, l) =>
        match decChildren f l with
        | none => none
        | some (cs, l) => some (.mk t a cs, l)
/-- Reader for `encChildren`, with a bound on the number of steps. -/
def decChildren : Nat → List Char → Option (List XmlElement × List Char)
  | 0, _ => none
  | _ + 1, [] => none
  | f + 1, c :: l =>
    if c = '0' then some ([], l)
    else match dec f l with
      | none => none
      | some (x, l) =>
        match decChildren f l with
        | none => none
        | some (xs, l) => some (x :: xs, l)
end

/-- Reader for a whole block: one element and nothing after it. -/
def decode (l : List Char) : Option XmlElement :=
  match dec (l.length + 1) l with
  | some (x, []) => some x
  | _ => none

/-- The environment over a table of files: a path is mapped to `none` when the file
exists without being XML, to its root element when it parses; paths outside the table do
not exist. -/
def juce (files : List (String × Option XmlElement)) : Juce (List Char) where
  toUpperCase := Char.toUpper
  fileExists := fun path => (files.lookup path).isSome
  parseXML := fun path => (files.lookup path).join
  getXmlFromBinary := decode
  copyXmlToBinary := enc
  fromBase64Encoding := String.data
  toBase64Encoding := String.mk

/-- A plugin whose instance is the block it was last given. -/
def plugin : PluginApi (List Char) (List Char) where
  getStateInformation := fun p => p
  setStateInformation := fun _ data => data

/-- The first `Meta` child of the example preset. -/
def firstMeta : XmlElement :=
  .mk "Meta" [("NAME", "Lead"), ("TAGS", "bass")] [.mk "Author" [] []]

/-- A preset with two `Meta` children, both tagged. -/
def preset : XmlElement :=
  .mk "Preset" [("version", "1")]
    [firstMeta, .mk "Osc" [("wave", "saw")] [], .mk "Meta" [("TAGS", "later")] []]

/-- A preset whose root has no `Meta` child. -/
def presetWithoutMeta : XmlElement :=
  .mk "Preset" [("version", "1")] [.mk "Osc" [("wave", "saw")] []]

/-- A preset whose `Meta` child carries the attribute `TAGS` twice. -/
def presetTwoTags : XmlElement :=
  .mk "Preset" [] [.mk "Meta" [("TAGS", "bass"), ("TAGS", "lead")] []]

/-- A preset whose first child is spelled `meta` and whose second is spelled `Meta`,
both tagged. -/
def presetLowerMeta : XmlElement :=
  .mk "Preset" [] [.mk "meta" [("TAGS", "a")] [], .mk "Meta" [("TAGS", "b")] []]

/-- A preset with a child spelled `sessioninfo`, and no child spelled `SessionInfo` or
`session_preset_meta`. -/
def presetLowerSession : XmlElement :=
  .mk "Preset" [] [.mk "Meta" [] [], .mk "sessioninfo" [("from", "preset")] []]

/-- The files of the example: five presets and a file that is not XML. -/
def files : List (String × Option XmlElement) :=
  [("lead.xml", some preset), ("nometa.xml", some presetWithoutMeta),
   ("twotags.xml", some presetTwoTags), ("lowermeta.xml", some presetLowerMeta),
   ("lowersession.xml", some presetLowerSession), ("broken.xml", none)]

/-- The `SessionInfo` node of the example state. -/
def sessionInfo : XmlElement :=
  .mk "SessionInfo" [("tempo", "120")] [.mk "Item" [] []]

/-- The `session_preset_meta` node of the example state. -/
def sessionPresetMeta : XmlElement :=
  .mk "session_preset_meta" [("preset_file_name", "Old"), ("rating", "5")]
    [.mk "History" [] []]

/-- An inner plugin state with both session nodes. -/
def currentState : XmlElement :=
  .mk "Current" [("v", "2")] [.mk "Params" [] [], sessionInfo, sessionPresetMeta]

/-- An inner plugin state whose `session_preset_meta` carries `preset_file_path`
twice. -/
def currentStateTwoPaths : XmlElement :=
  .mk "Current" []
    [.mk "SessionInfo" [] [],
     .mk "session_preset_meta" [("preset_file_path", "a"), ("preset_file_path", "b")] []]

/-- An inner plugin state whose first child is spelled `sessioninfo` and whose second is
spelled `SessionInfo`. -/
def currentStateLowerFirst : XmlElement :=
  .mk "Current" []
    [.mk "sessioninfo" [("which", "lower")] [], .mk "SessionInfo" [("which", "exact")] [],
     sessionPresetMeta]

/-- An inner plugin state with a child spelled `SESSION_PRESET_META` before the one
spelled `session_preset_meta`. -/
def currentStateUpperMeta : XmlElement :=
  .mk "Current" []
    [sessionInfo, .mk "SESSION_PRESET_META" [("rating", "5")] [],
     .mk "session_preset_meta" [("rating", "1")] []]

/-- An inner plugin state whose only children are spelled `sessioninfo` and
`SESSION_PRESET_META`. -/
def currentStateOtherCase : XmlElement :=
  .mk "Current" [] [.mk "sessioninfo" [] [], .mk "SESSION_PRESET_META" [] []]

/-- An inner plugin state without `SessionInfo` and without `session_preset_meta`. -/
def currentStateBare : XmlElement :=
  .mk "Current" [] [.mk "Params" [] []]

/-- An inner plugin state with `SessionInfo` only. -/
def currentStateNoMeta : XmlElement :=
  .mk "Current" [] [.mk "SessionInfo" [] []]

/-- The example environment. -/
def env : Juce (List Char) := juce files

/-- An instance of `Current` hosting the example plugin with a given inner state. -/
def current (inner : XmlElement) : Current (List Char) :=
  Current.mk "Current.vst3" (encodeState env inner)

/-- The outer element of a plugin state whose component child is spelled `icomponent`
and whose inner state is `currentStateOtherCase`. -/
def vst3StateOtherCase : XmlElement :=
  .mk "VST3PluginState" []
    [.mk "icomponent" [] [XmlElement.createTextElement (String.mk (enc currentStateOtherCase))]]

end Example

/-! ## The example codec inverts itself -/

namespace Example

theorem decNat_encNat (n : Nat) (rest : List Char) :
    decNat (encNat n ++ rest) = some (n, rest) := by
  induction n with
  | zero => simp [encNat, decNat]
  | succ n ih =>
    have hcons : encNat (n + 1) ++ rest = '1' :: (encNat n ++ rest) := by
      simp [encNat, List.replicate_succ]
    rw [hcons, decNat, ih]; simp

theorem decStr_encStr (s : String) (rest : List Char) :
    decStr (encStr s ++ rest) = some (s, rest) := by
  have hlen : s.length = s.data.length := rfl
  rw [encStr, List.append_assoc, decStr, decNat_encNat, hlen]
  simp

theorem encStr_length_pos (s : String) : 0 < (encStr s).length := by
  simp [encStr, encNat]

theorem decAttrs_encAttrs (as : List (String × String)) :
    ∀ (f : Nat) (rest : List Char), (encAttrs as).length ≤ f →
      decAttrs f (encAttrs as ++ rest) = some (as, rest) := by
  induction as with
  | nil =>
    intro f rest h
    cases f with
    | zero => simp [encAttrs] at h
    | succ f => simp [encAttrs, decAttrs]
  | cons a as ih =>
    intro f rest h
    cases f with
    | zero => simp [encAttrs] at h
    | succ f =>
      have h2 : (encAttrs as).length ≤ f := by
        simp [encAttrs] at h; omega
      simp [encAttrs, decAttrs, List.append_assoc, decStr_encStr, ih f rest h2]

mutual
theorem dec_enc : ∀ (x : XmlElement) (f : Nat) (rest : List Char),
    (enc x).length < f → dec f (enc x ++ rest) = some (x, rest)
  | .mk t a cs, f, rest, h => by
    cases f with
    | zero => simp at h
    | succ f =>
      have hpos := encStr_length_pos t
      have h1 : (encAttrs a).length ≤ f := by
        simp [enc] at h; omega
      have h2 : (encChildren cs).length ≤ f := by
        simp [enc] at h; omega
      simp [enc, dec, List.append_assoc, decStr_encStr, decAttrs_encAttrs a f _ h1,
        decChildren_encChildren cs f rest h2]
theorem decChildren_encChildren : ∀ (cs : List XmlElement) (f : Nat) (rest : List Char),
    (encChildren cs).length ≤ f →
      decChildren f (encChildren cs ++ rest) = some (cs, rest)
  | [], f, rest, h => by
    cases f with
    | zero => simp [encChildren] at h
    | succ f => simp [encChildren, decChildren]
  | c :: cs, f, rest, h => by
    cases f with
    | zero => simp [encChildren] at h
    | succ f =>
      have h1 : (enc c).length < f := by
        have hpos : 0 < (encChildren cs).length := by cases cs <;> simp [encChildren]
        simp [encChildren] at h; omega
      have h2 : (encChildren cs).length ≤ f := by
        simp [encChildren] at h; omega
      simp [encChildren, decChildren, List.append_assoc, dec_enc c f _ h1,
        decChildren_encChildren cs f rest h2]
end

theorem decode_enc (x : XmlElement) : decode (enc x) = some x := by
  have h := dec_enc x ((enc x).length + 1) [] (by omega)
  simp at h
  simp [decode, h]

/-- The example codec satisfies the round-trip assumption. -/
theorem juce_decodersInvertEncoders (files : List (String × Option XmlElement)) :
    (juce files).DecodersInvertEncoders :=
  ⟨fun x => decode_enc x, fun _ => rfl⟩

end Example

/-! ## Lemmas on `equalsIgnoreCase` -/

theorem equalsIgnoreCaseList_refl (up : Char → Char) (a : List Char) :
    equalsIgnoreCaseList up a a = true := by
  induction a with
  | nil => rfl
  | cons c cs ih => simp [equalsIgnoreCaseList, ih]

theorem equalsIgnoreCase_refl (up : Char → Char) (a : String) :
    equalsIgnoreCase up a a = true :=
  equalsIgnoreCaseList_refl up a.data

namespace XmlElement

theorem tagName_setAttribute (e : XmlElement) (k v : String) :
    (e.setAttribute k v).tagName = e.tagName := rfl

theorem attributes_setAttribute (e : XmlElement) (k v : String) :
    (e.setAttribute k v).attributes = setAttributeList k v e.attributes := rfl

theorem children_addChildElement (e c : XmlElement) :
    (e.addChildElement c).children = e.children ++ [c] := rfl

theorem children_updateChildByName (up : Char → Char) (e : XmlElement) (name : String)
    (f : XmlElement → XmlElement) :
    (e.updateChildByName up name f).children = updateFirstNamed up name f e.children := rfl

theorem hasTagName_setAttribute (up : Char → Char) (e : XmlElement) (k v name : String) :
    (e.setAttribute k v).hasTagName up name = e.hasTagName up name := rfl

theorem hasTagName_removeAttribute (up : Char → Char) (e : XmlElement) (k name : String) :
    (e.removeAttribute k).hasTagName up name = e.hasTagName up name := rfl

theorem hasTagName_self (up : Char → Char) (t : String) (a : List (String × String))
    (cs : List XmlElement) : (mk t a cs).hasTagName up t = true :=
  equalsIgnoreCase_refl up t

theorem mk_eta (e : XmlElement) : mk e.tagName e.attributes e.children = e := by
  cases e; rfl

theorem hasTagName_of_getChildByName {up : Char → Char} {e c : XmlElement} {name : String}
    (h : e.getChildByName up name = some c) : c.hasTagName up name = true := by
  unfold getChildByName at h
  have h1 := List.find?_some h
  simpa using h1

/-! ### Attribute lists -/

theorem find_setAttributeList_same (k v : String) (l : List (String × String)) :
    (setAttributeList k v l).find? (fun a => a.1 == k) = some (k, v) := by
  induction l with
  | nil => simp [setAttributeList]
  | cons a rest ih =>
    by_cases h : a.1 = k
    · simp [setAttributeList, h]
    · simp [setAttributeList, h, ih]

theorem find_setAttributeList_other {k k' : String} (v : String) (hk : k' ≠ k)
    (l : List (String × String)) :
    (setAttributeList k v l).find? (fun a => a.1 == k') = l.find? (fun a => a.1 == k') := by
  induction l with
  | nil => simp [setAttributeList, hk.symm]
  | cons a rest ih =>
    by_cases h : a.1 = k
    · have h' : ¬ a.1 = k' := fun e => hk (e.symm.trans h)
      simp [setAttributeList, h, List.find?_cons, hk.symm, h']
    · have hb : (a.1 == k) = false := by simpa using h
      have hstep : setAttributeList k v (a :: rest) = a :: setAttributeList k v rest := by
        simp [setAttributeList, hb]
      rw [hstep, List.find?_cons, List.find?_cons, ih]

theorem countP_setAttributeList_same (k v : String) (l : List (String × String)) :
    (setAttributeList k v l).countP (fun a => a.1 == k) =
      max 1 (l.countP (fun a => a.1 == k)) := by
  induction l with
  | nil => simp [setAttributeList]
  | cons a rest ih =>
    by_cases h : a.1 = k
    · simp [setAttributeList, h, List.countP_cons]
    · simp [setAttributeList, h, List.countP_cons, ih]

theorem countP_setAttributeList_other {k k' : String} (v : String) (hk : k' ≠ k)
    (l : List (String × String)) :
    (setAttributeList k v l).countP (fun a => a.1 == k') =
      l.countP (fun a => a.1 == k') := by
  induction l with
  | nil => simp [setAttributeList, hk.symm]
  | cons a rest ih =>
    by_cases h : a.1 = k
    · simp [setAttributeList, h, List.countP_cons]
    · simp [setAttributeList, h, List.countP_cons, ih]

theorem filter_setAttributeList {k : String} (v : String) {p : String × String → Bool}
    (hp : ∀ w, p (k, w) = false) (l : List (String × String)) :
    (setAttributeList k v l).filter p = l.filter p := by
  induction l with
  | nil => simp [setAttributeList, hp]
  | cons a rest ih =>
    by_cases h : a.1 = k
    · have ha : a = (k, a.2) := by rw [← h]
      have h1 : p a = false := by rw [ha]; exact hp _
      simp [setAttributeList, h, List.filter_cons, hp, h1]
    · simp [setAttributeList, h, List.filter_cons, ih]

theorem filter_removeAttributeList {k : String} {p : String × String → Bool}
    (hp : ∀ w, p (k, w) = false) (l : List (String × String)) :
    (removeAttributeList k l).filter p = l.filter p := by
  induction l with
  | nil => simp [removeAttributeList]
  | cons a rest ih =>
    by_cases h : a.1 = k
    · have ha : a = (k, a.2) := by rw [← h]
      have h1 : p a = false := by rw [ha]; exact hp _
      simp [removeAttributeList, h, List.filter_cons, h1]
    · simp [removeAttributeList, h, List.filter_cons, ih]

theorem countP_removeAttributeList (k : String) (l : List (String × String)) :
    (removeAttributeList k l).countP (fun a => a.1 == k) =
      l.countP (fun a => a.1 == k) - 1 := by
  induction l with
  | nil => simp [removeAttributeList]
  | cons a rest ih =>
    by_cases h : a.1 = k
    · simp [removeAttributeList, h, List.countP_cons]
    · simp [removeAttributeList, h, List.countP_cons, ih]

theorem removeAttributeList_of_countP_zero {k : String} {l : List (String × String)}
    (h : l.countP (fun a => a.1 == k) = 0) : removeAttributeList k l = l := by
  induction l with
  | nil => simp [removeAttributeList]
  | cons a rest ih =>
    by_cases ha : a.1 = k
    · simp [List.countP_cons, ha] at h
    · have hb : (a.1 == k) = false := by simpa using ha
      rw [List.countP_cons, hb] at h
      simp [removeAttributeList, ha, ih (by simpa using h)]

theorem getStringAttribute_setAttribute_same (e : XmlElement) (k v : String) :
    (e.setAttribute k v).getStringAttribute k = v := by
  simp [getStringAttribute, attributes_setAttribute, find_setAttributeList_same]

theorem getStringAttribute_setAttribute_other (e : XmlElement) {k k' : String} (v : String)
    (hk : k' ≠ k) :
    (e.setAttribute k v).getStringAttribute k' = e.getStringAttribute k' := by
  simp [getStringAttribute, attributes_setAttribute, find_setAttributeList_other v hk]

theorem countAttribute_setAttribute_same (e : XmlElement) (k v : String) :
    (e.setAttribute k v).countAttribute k = max 1 (e.countAttribute k) := by
  simp [countAttribute, attributes_setAttribute, countP_setAttributeList_same]

theorem countAttribute_setAttribute_other (e : XmlElement) {k k' : String} (v : String)
    (hk : k' ≠ k) :
    (e.setAttribute k v).countAttribute k' = e.countAttribute k' := by
  simp [countAttribute, attributes_setAttribute, countP_setAttributeList_other v hk]

theorem updateFirstNamed_of_find {up : Char → Char} {name : String}
    (f : XmlElement → XmlElement) {cs : List XmlElement} {m : XmlElement}
    (h : cs.find? (fun c => c.hasTagName up name) = some m) :
    ∃ pre post, cs = pre ++ m :: post ∧ (∀ c ∈ pre, c.hasTagName up name = false) ∧
      m.hasTagName up name = true ∧
      updateFirstNamed up name f cs = pre ++ f m :: post := by
  induction cs with
  | nil => simp at h
  | cons c rest ih =>
    by_cases hc : c.hasTagName up name = true
    · simp [List.find?_cons, hc] at h
      subst h
      exact ⟨[], rest, rfl, by simp, hc, by simp [updateFirstNamed, hc]⟩
    · simp only [Bool.not_eq_true] at hc
      simp [List.find?_cons, hc] at h
      obtain ⟨pre, post, h1, h2, h3, h4⟩ := ih h
      refine ⟨c :: pre, post, by simp [h1], ?_, h3, by simp [updateFirstNamed, hc, h4]⟩
      intro x hx
      rcases List.mem_cons.1 hx with rfl | hx
      · exact hc
      · exact h2 x hx

theorem getAllSubText_component (text : String) :
    (mk "IComponent" [] [createTextElement text]).getAllSubText = text := by
  have h1 : "IComponent".isEmpty = false := by decide
  have h2 : "".isEmpty = true := by decide
  simp [getAllSubText, createTextElement, h1, h2, getStringAttribute, attributes]

end XmlElement

/-! ## Reading back what was written -/

theorem decodeState_some {β : Type} {J : Juce β} {data : β} {currentState : XmlElement}
    (h : decodeState J data = some currentState) :
    ∃ vst3State comp, J.getXmlFromBinary data = some vst3State ∧
      vst3State.getChildByName J.toUpperCase "IComponent" = some comp ∧
      J.getXmlFromBinary (J.fromBase64Encoding comp.getAllSubText) = some currentState := by
  unfold decodeState at h
  cases hv : J.getXmlFromBinary data with
  | none => simp [hv] at h
  | some vst3State =>
    cases hc : vst3State.getChildByName J.toUpperCase "IComponent" with
    | none => simp [hv, hc] at h
    | some comp =>
      simp [hv, hc] at h
      exact ⟨vst3State, comp, rfl, hc, h⟩

theorem decodeState_encodeState {β : Type} {J : Juce β} (hJ : J.DecodersInvertEncoders)
    (inner : XmlElement) : decodeState J (encodeState J inner) = some inner := by
  have hc : (finalXML (J.toBase64Encoding (J.copyXmlToBinary inner))).getChildByName J.toUpperCase
      "IComponent" = some (XmlElement.mk "IComponent" []
        [XmlElement.createTextElement (J.toBase64Encoding (J.copyXmlToBinary inner))]) := by
    simp [finalXML, XmlElement.getChildByName, XmlElement.children,
      XmlElement.hasTagName_self]
  simp [decodeState, encodeState, hJ.1, hc, XmlElement.getAllSubText_component, hJ.2]

/-! ## How a call runs -/

/-- The run of a call on which every lookup succeeds. -/
theorem load_eq_of_all_found {β π : Type} {J : Juce β} {P : PluginApi β π}
    {self : Current π} {path name uuid pack : String}
    {presetXml vst3State comp currentState si spm meta : XmlElement}
    (hfe : J.fileExists path = true) (hp : J.parseXML path = some presetXml)
    (hv : J.getXmlFromBinary (P.getStateInformation self.pluginInstance) = some vst3State)
    (hc : vst3State.getChildByName J.toUpperCase "IComponent" = some comp)
    (hs : J.getXmlFromBinary (J.fromBase64Encoding comp.getAllSubText) = some currentState)
    (hsi : currentState.getChildByName J.toUpperCase "SessionInfo" = some si)
    (hspm : currentState.getChildByName J.toUpperCase "session_preset_meta" = some spm)
    (hm : presetXml.getChildByName J.toUpperCase "Meta" = some meta) :
    self.loadMinimalAudioCurrentPreset J P path name uuid pack =
      ⟨.returned,
        Current.mk self.pluginPath (P.setStateInformation self.pluginInstance
          (encodeState J (presetXmlAtEncoding J.toUpperCase presetXml si spm path name uuid pack))),
        [.getState,
          .setState (encodeState J (presetXmlAtEncoding J.toUpperCase presetXml si spm path name uuid pack))]⟩ := by
  simp [Current.loadMinimalAudioCurrentPreset, hfe, hp, hv, hc, hs, hsi, hspm, hm,
    encodeState, presetXmlAtEncoding]

/-- A call that returns found the file, parsed it, unwrapped the live state, found the
three nodes it looks up, and ran as `load_eq_of_all_found` says. -/
theorem load_returned {β π : Type} {J : Juce β} {P : PluginApi β π} {self : Current π}
    {path name uuid pack : String}
    (h : (self.loadMinimalAudioCurrentPreset J P path name uuid pack).outcome = .returned) :
    ∃ presetXml vst3State comp currentState si spm meta,
      J.fileExists path = true ∧ J.parseXML path = some presetXml ∧
      J.getXmlFromBinary (P.getStateInformation self.pluginInstance) = some vst3State ∧
      vst3State.getChildByName J.toUpperCase "IComponent" = some comp ∧
      J.getXmlFromBinary (J.fromBase64Encoding comp.getAllSubText) = some currentState ∧
      currentState.getChildByName J.toUpperCase "SessionInfo" = some si ∧
      currentState.getChildByName J.toUpperCase "session_preset_meta" = some spm ∧
      presetXml.getChildByName J.toUpperCase "Meta" = some meta := by
  cases hfe : J.fileExists path with
  | false => simp [Current.loadMinimalAudioCurrentPreset, hfe] at h
  | true =>
  cases hp : J.parseXML path with
  | none => simp [Current.loadMinimalAudioCurrentPreset, hfe, hp] at h
  | some presetXml =>
  cases hv : J.getXmlFromBinary (P.getStateInformation self.pluginInstance) with
  | none => simp [Current.loadMinimalAudioCurrentPreset, hfe, hp, hv] at h
  | some vst3State =>
  cases hc : vst3State.getChildByName J.toUpperCase "IComponent" with
  | none => simp [Current.loadMinimalAudioCurrentPreset, hfe, hp, hv, hc] at h
  | some comp =>
  cases hs : J.getXmlFromBinary (J.fromBase64Encoding comp.getAllSubText) with
  | none => simp [Current.loadMinimalAudioCurrentPreset, hfe, hp, hv, hc, hs] at h
  | some currentState =>
  cases hsi : currentState.getChildByName J.toUpperCase "SessionInfo" with
  | none => simp [Current.loadMinimalAudioCurrentPreset, hfe, hp, hv, hc, hs, hsi] at h
  | some si =>
  cases hspm : currentState.getChildByName J.toUpperCase "session_preset_meta" with
  | none =>
    simp [Current.loadMinimalAudioCurrentPreset, hfe, hp, hv, hc, hs, hsi, hspm] at h
  | some spm =>
  cases hm : presetXml.getChildByName J.toUpperCase "Meta" with
  | none =>
    simp [Current.loadMinimalAudioCurrentPreset, hfe, hp, hv, hc, hs, hsi, hspm, hm] at h
  | some meta =>
    exact ⟨presetXml, vst3State, comp, currentState, si, spm, meta, rfl, rfl, rfl, hc, hs,
      hsi, hspm, hm⟩

/-- The run of a call whose preset parses with a `Meta` child and whose live state
unwraps to an element with both session nodes. -/
theorem load_eq_of_success {β π : Type} {J : Juce β} {P : PluginApi β π}
    {self : Current π} {path name uuid pack : String}
    {presetXml currentState si spm meta : XmlElement}
    (hfe : J.fileExists path = true) (hp : J.parseXML path = some presetXml)
    (hst : decodeState J (P.getStateInformation self.pluginInstance) = some currentState)
    (hsi : currentState.getChildByName J.toUpperCase "SessionInfo" = some si)
    (hspm : currentState.getChildByName J.toUpperCase "session_preset_meta" = some spm)
    (hm : presetXml.getChildByName J.toUpperCase "Meta" = some meta) :
    self.loadMinimalAudioCurrentPreset J P path name uuid pack =
      ⟨.returned,
        Current.mk self.pluginPath (P.setStateInformation self.pluginInstance
          (encodeState J (presetXmlAtEncoding J.toUpperCase presetXml si spm path name uuid pack))),
        [.getState,
          .setState (encodeState J (presetXmlAtEncoding J.toUpperCase presetXml si spm path name uuid pack))]⟩ := by
  obtain ⟨vst3State, comp, hv, hc, hs⟩ := decodeState_some hst
  exact load_eq_of_all_found hfe hp hv hc hs hsi hspm hm

/-- Whatever the preset names and the plugin state, a preset root without a `Meta`
child makes the call end in the null dereference once both session nodes are found. -/
theorem load_eq_of_meta_missing {β π : Type} {J : Juce β} {P : PluginApi β π}
    {self : Current π} {path name uuid pack : String}
    {presetXml currentState si spm : XmlElement}
    (hfe : J.fileExists path = true) (hp : J.parseXML path = some presetXml)
    (hst : decodeState J (P.getStateInformation self.pluginInstance) = some currentState)
    (hsi : currentState.getChildByName J.toUpperCase "SessionInfo" = some si)
    (hspm : currentState.getChildByName J.toUpperCase "session_preset_meta" = some spm)
    (hm : presetXml.getChildByName J.toUpperCase "Meta" = none) :
    self.loadMinimalAudioCurrentPreset J P path name uuid pack =
      ⟨.nullDereference, self, [.getState]⟩ := by
  obtain ⟨vst3State, comp, hv, hc, hs⟩ := decodeState_some hst
  simp [Current.loadMinimalAudioCurrentPreset, hfe, hp, hv, hc, hs, hsi, hspm, hm]

/-- Every run ends in one of nine ways: the seven exceptions, each raised with the object
untouched and at most a read of the plugin state; the null dereference, likewise; or a
normal return whose last step is the only write of the plugin state. -/
theorem load_cases {β π : Type} (J : Juce β) (P : PluginApi β π) (self : Current π)
    (path name uuid pack : String) :
    (∃ what calls,
      what ∈ [Outcome.invalidArgument ("Preset file does not exists: " ++ path),
        Outcome.runtimeError ("Preset file corrupted: " ++ path),
        Outcome.runtimeError "Unexpected VST3 state structure.",
        Outcome.runtimeError "Unexpected VST3 state structure (IComponent).",
        Outcome.runtimeError "Could not read Current state.",
        Outcome.runtimeError
          "Error when loading Minimal Audio Current preset: No sessionInfoXml",
        Outcome.runtimeError
          "Error when loading Minimal Audio Current preset: No sessionPresetMeta",
        Outcome.nullDereference] ∧
      (calls = [] ∨ calls = [PluginCall.getState]) ∧
      self.loadMinimalAudioCurrentPreset J P path name uuid pack = ⟨what, self, calls⟩) ∨
    (∃ data,
      self.loadMinimalAudioCurrentPreset J P path name uuid pack =
        ⟨.returned, Current.mk self.pluginPath
          (P.setStateInformation self.pluginInstance data),
          [.getState, .setState data]⟩) := by
  cases hfe : J.fileExists path with
  | false =>
    exact Or.inl ⟨.invalidArgument ("Preset file does not exists: " ++ path), [], by simp,
      Or.inl rfl, by simp [Current.loadMinimalAudioCurrentPreset, hfe]⟩
  | true =>
  cases hp : J.parseXML path with
  | none =>
    exact Or.inl ⟨.runtimeError ("Preset file corrupted: " ++ path), [], by simp,
      Or.inl rfl, by simp [Current.loadMinimalAudioCurrentPreset, hfe, hp]⟩
  | some presetXml =>
  cases hv : J.getXmlFromBinary (P.getStateInformation self.pluginInstance) with
  | none =>
    exact Or.inl ⟨.runtimeError "Unexpected VST3 state structure.", [.getState], by simp,
      Or.inr rfl, by simp [Current.loadMinimalAudioCurrentPreset, hfe, hp, hv]⟩
  | some vst3State =>
  cases hc : vst3State.getChildByName J.toUpperCase "IComponent" with
  | none =>
    exact Or.inl ⟨.runtimeError "Unexpected VST3 state structure (IComponent).",
      [.getState], by simp, Or.inr rfl,
      by simp [Current.loadMinimalAudioCurrentPreset, hfe, hp, hv, hc]⟩
  | some comp =>
  cases hs : J.getXmlFromBinary (J.fromBase64Encoding comp.getAllSubText) with
  | none =>
    exact Or.inl ⟨.runtimeError "Could not read Current state.", [.getState], by simp,
      Or.inr rfl, by simp [Current.loadMinimalAudioCurrentPreset, hfe, hp, hv, hc, hs]⟩
  | some currentState =>
  cases hsi : currentState.getChildByName J.toUpperCase "SessionInfo" with
  | none =>
    exact Or.inl ⟨.runtimeError
      "Error when loading Minimal Audio Current preset: No sessionInfoXml", [.getState],
      by simp, Or.inr rfl,
      by simp [Current.loadMinimalAudioCurrentPreset, hfe, hp, hv, hc, hs, hsi]⟩
  | some si =>
  cases hspm : currentState.getChildByName J.toUpperCase "session_preset_meta" with
  | none =>
    exact Or.inl ⟨.runtimeError
      "Error when loading Minimal Audio Current preset: No sessionPresetMeta", [.getState],
      by simp, Or.inr rfl,
      by simp [Current.loadMinimalAudioCurrentPreset, hfe, hp, hv, hc, hs, hsi, hspm]⟩
  | some spm =>
  cases hm : presetXml.getChildByName J.toUpperCase "Meta" with
  | none =>
    exact Or.inl ⟨.nullDereference, [.getState], by simp, Or.inr rfl,
      by simp [Current.loadMinimalAudioCurrentPreset, hfe, hp, hv, hc, hs, hsi, hspm, hm]⟩
  | some meta =>
    exact Or.inr ⟨_, load_eq_of_all_found hfe hp hv hc hs hsi hspm hm⟩

/-- The children of the preset root when it is encoded: the children before the one
that the lookup of `Meta` finds, that child after `removeAttribute`, and the children
after it. -/
theorem children_updateChildByName_meta {up : Char → Char} {presetXml meta : XmlElement}
    (hm : presetXml.getChildByName up "Meta" = some meta) :
    ∃ pre post, presetXml.children = pre ++ meta :: post ∧
      (∀ c ∈ pre, c.hasTagName up "Meta" = false) ∧
      (presetXml.updateChildByName up "Meta" (fun m => m.removeAttribute "TAGS")).children =
        pre ++ meta.removeAttribute "TAGS" :: post := by
  obtain ⟨pre, post, h1, h2, _, h4⟩ :=
    XmlElement.updateFirstNamed_of_find (fun m => m.removeAttribute "TAGS") hm
  exact ⟨pre, post, h1, h2, by simpa [XmlElement.children_updateChildByName] using h4⟩

/-- The children of the inner XML that a successful call encodes. -/
theorem children_presetXmlAtEncoding {up : Char → Char} {presetXml meta : XmlElement}
    (si spm : XmlElement) (path name uuid pack : String)
    (hm : presetXml.getChildByName up "Meta" = some meta) :
    ∃ pre post, presetXml.children = pre ++ meta :: post ∧
      (∀ c ∈ pre, c.hasTagName up "Meta" = false) ∧
      (presetXmlAtEncoding up presetXml si spm path name uuid pack).children =
        (pre ++ meta.removeAttribute "TAGS" :: post) ++
          [si, (((spm.setAttribute "preset_file_path" path).setAttribute
            "preset_file_name" name).setAttribute "preset_file_pack" pack).setAttribute
            "preset_file_uid" uuid] := by
  obtain ⟨pre, post, h1, h2, h3⟩ := children_updateChildByName_meta hm
  refine ⟨pre, post, h1, h2, ?_⟩
  simp only [presetXmlAtEncoding, XmlElement.children_addChildElement, h3,
    List.append_assoc, List.singleton_append]

namespace XmlElement

/-- What `removeAttribute` does to an attribute list: nothing when no node has the name,
and otherwise it takes out the first node with the name and no other. -/
theorem removeAttributeList_cases (k : String) (l : List (String × String)) :
    (l.countP (fun a => a.1 == k) = 0 ∧ removeAttributeList k l = l) ∨
    ∃ l1 v l2, l = l1 ++ (k, v) :: l2 ∧ (∀ a ∈ l1, a.1 ≠ k) ∧
      removeAttributeList k l = l1 ++ l2 := by
  induction l with
  | nil => exact Or.inl ⟨rfl, rfl⟩
  | cons a rest ih =>
    by_cases ha : a.1 = k
    · refine Or.inr ⟨[], a.2, rest, ?_, by simp, by simp [removeAttributeList, ha]⟩
      rw [← ha]; rfl
    · have hb : (a.1 == k) = false := by simpa using ha
      rcases ih with ⟨h0, h1⟩ | ⟨l1, v, l2, h1, h2, h3⟩
      · refine Or.inl ⟨?_, by simp [removeAttributeList, ha, h1]⟩
        rw [List.countP_cons, hb, h0]; rfl
      · refine Or.inr ⟨a :: l1, v, l2, by simp [h1], ?_, by simp [removeAttributeList, ha, h3]⟩
        intro x hx
        rcases List.mem_cons.1 hx with rfl | hx
        · exact ha
        · exact h2 x hx

end XmlElement

/-! ## The two appended nodes -/

/-- C1, as amended. When the preset file exists and parses to a root on which the lookup
of `Meta` finds a child, and the plugin state unwraps to an element on which the lookups
of `SessionInfo` and `session_preset_meta` find a child (each lookup returns the first
child whose tag name equals the name up to letter case), the call returns and the inner
XML it writes has the tag name and the attributes of the preset root and, as children,
the children of the preset root in place, the one found for `Meta` after
`removeAttribute ("TAGS")` and the others untouched, followed by exactly two more: the
node found for `SessionInfo`, unchanged, and then the node found for
`session_preset_meta`, carrying the four attributes the call sets. -/
theorem loadPreset_appends_session_nodes {β π : Type} (J : Juce β) (P : PluginApi β π)
    (self : Current π) (path name uuid pack : String)
    (presetXml currentState si spm meta : XmlElement)
    (hfe : J.fileExists path = true) (hp : J.parseXML path = some presetXml)
    (hst : decodeState J (P.getStateInformation self.pluginInstance) = some currentState)
    (hsi : currentState.getChildByName J.toUpperCase "SessionInfo" = some si)
    (hspm : currentState.getChildByName J.toUpperCase "session_preset_meta" = some spm)
    (hm : presetXml.getChildByName J.toUpperCase "Meta" = some meta) :
    ∃ inner pre post,
      (self.loadMinimalAudioCurrentPreset J P path name uuid pack).outcome = .returned ∧
      (self.loadMinimalAudioCurrentPreset J P path name uuid pack).calls =
        [.getState, .setState (encodeState J inner)] ∧
      inner.tagName = presetXml.tagName ∧ inner.attributes = presetXml.attributes ∧
      presetXml.children = pre ++ meta :: post ∧
      (∀ c ∈ pre, c.hasTagName J.toUpperCase "Meta" = false) ∧
      inner.children = (pre ++ meta.removeAttribute "TAGS" :: post) ++
        [si, (((spm.setAttribute "preset_file_path" path).setAttribute
          "preset_file_name" name).setAttribute "preset_file_pack" pack).setAttribute
          "preset_file_uid" uuid] := by
  obtain ⟨pre, post, h1, h2, h3⟩ :=
    children_presetXmlAtEncoding si spm path name uuid pack hm
  refine ⟨presetXmlAtEncoding J.toUpperCase presetXml si spm path name uuid pack, pre, post,
    ?_, ?_, rfl, rfl, h1, h2, h3⟩
  · rw [load_eq_of_success hfe hp hst hsi hspm hm]
  · rw [load_eq_of_success hfe hp hst hsi hspm hm]

set_option maxRecDepth 1000000 in
/-- The amended C1 on the example: preset `lead.xml` loaded into the example plugin. -/
theorem loadPreset_appends_session_nodes_witness :
    ∃ inner pre post,
      ((Example.current Example.currentState).loadMinimalAudioCurrentPreset Example.env
        Example.plugin "lead.xml" "Lead" "u-1" "Pack").outcome = .returned ∧
      ((Example.current Example.currentState).loadMinimalAudioCurrentPreset Example.env
        Example.plugin "lead.xml" "Lead" "u-1" "Pack").calls =
        [.getState, .setState (encodeState Example.env inner)] ∧
      inner.tagName = Example.preset.tagName ∧
      inner.attributes = Example.preset.attributes ∧
      Example.preset.children = pre ++ Example.firstMeta :: post ∧
      (∀ c ∈ pre, c.hasTagName Example.env.toUpperCase "Meta" = false) ∧
      inner.children = (pre ++ Example.firstMeta.removeAttribute "TAGS" :: post) ++
        [Example.sessionInfo,
         (((Example.sessionPresetMeta.setAttribute "preset_file_path"
            "lead.xml").setAttribute "preset_file_name" "Lead").setAttribute
            "preset_file_pack" "Pack").setAttribute "preset_file_uid" "u-1"] :=
  loadPreset_appends_session_nodes Example.env Example.plugin
    (Example.current Example.currentState) "lead.xml" "Lead" "u-1" "Pack"
    Example.preset Example.currentState Example.sessionInfo Example.sessionPresetMeta
    Example.firstMeta (by decide) (by rfl) (by rfl) (by rfl) (by rfl) (by rfl)

set_option maxRecDepth 1000000 in
/-- C1 fails as stated: with the live children `sessioninfo`, `SessionInfo`,
`session_preset_meta` (in this order) and the preset `lead.xml`, the call returns and the
state it wrote has, after the three children of the preset, the node spelled
`sessioninfo`, not the first child named `SessionInfo`; and the first of the three, the
preset's `Meta`, is no longer as in the preset file, its `TAGS` attribute is gone. -/
theorem loadPreset_appends_other_case_node :
    Example.currentStateLowerFirst.children.map (fun c => (c.tagName, c.attributes)) =
      [("sessioninfo", [("which", "lower")]), ("SessionInfo", [("which", "exact")]),
        ("session_preset_meta", [("preset_file_name", "Old"), ("rating", "5")])] ∧
    Example.preset.children.map (fun c => (c.tagName, c.attributes)) =
      [("Meta", [("NAME", "Lead"), ("TAGS", "bass")]), ("Osc", [("wave", "saw")]),
        ("Meta", [("TAGS", "later")])] ∧
    ((Example.current Example.currentStateLowerFirst).loadMinimalAudioCurrentPreset
      Example.env Example.plugin "lead.xml" "Lead" "u-1" "Pack").outcome = .returned ∧
    (decodeState Example.env
      ((Example.current Example.currentStateLowerFirst).loadMinimalAudioCurrentPreset
        Example.env Example.plugin "lead.xml" "Lead" "u-1"
        "Pack").self.pluginInstance).map
      (fun inner => (inner.children.take 4).map (fun c => (c.tagName, c.attributes))) =
      some [("Meta", [("NAME", "Lead")]), ("Osc", [("wave", "saw")]),
        ("Meta", [("TAGS", "later")]), ("sessioninfo", [("which", "lower")])] := by
  decide

/-! ## The attributes set on `session_preset_meta` -/

/-- C2, as amended. When the call succeeds, the element it appends last to the written
state is the node that the lookup of `session_preset_meta` found in the live state (the
first child whose tag name equals that name up to letter case), with its tag name and
children as they were; it reads `preset_file_path = path`, `preset_file_name = name`,
`preset_file_pack = pack` and `preset_file_uid = uuid` (also for empty arguments); each
of these four names occurs in it as often as in the live node, and once when the live
node lacked it, so exactly once when the live node carried it at most once; and its
attributes with other names are those of the live node, in the same order. -/
theorem loadPreset_sets_preset_file_attributes {β π : Type} (J : Juce β)
    (P : PluginApi β π) (self : Current π) (path name uuid pack : String)
    (presetXml currentState si spm meta : XmlElement)
    (hfe : J.fileExists path = true) (hp : J.parseXML path = some presetXml)
    (hst : decodeState J (P.getStateInformation self.pluginInstance) = some currentState)
    (hsi : currentState.getChildByName J.toUpperCase "SessionInfo" = some si)
    (hspm : currentState.getChildByName J.toUpperCase "session_preset_meta" = some spm)
    (hm : presetXml.getChildByName J.toUpperCase "Meta" = some meta) :
    ∃ inner kept written,
      (self.loadMinimalAudioCurrentPreset J P path name uuid pack).outcome = .returned ∧
      (self.loadMinimalAudioCurrentPreset J P path name uuid pack).calls =
        [.getState, .setState (encodeState J inner)] ∧
      kept.length = presetXml.children.length ∧
      inner.children = kept ++ [si, written] ∧
      written.tagName = spm.tagName ∧
      written.hasTagName J.toUpperCase "session_preset_meta" = true ∧
      written.getStringAttribute "preset_file_path" = path ∧
      written.getStringAttribute "preset_file_name" = name ∧
      written.getStringAttribute "preset_file_pack" = pack ∧
      written.getStringAttribute "preset_file_uid" = uuid ∧
      (∀ k ∈ presetFileAttributes,
        written.countAttribute k = max 1 (spm.countAttribute k)) ∧
      written.attributes.filter (fun a => !presetFileAttributes.contains a.1) =
        spm.attributes.filter (fun a => !presetFileAttributes.contains a.1) ∧
      written.children = spm.children := by
  obtain ⟨pre, post, h1, _, h3⟩ :=
    children_presetXmlAtEncoding si spm path name uuid pack hm
  refine ⟨presetXmlAtEncoding J.toUpperCase presetXml si spm path name uuid pack,
    pre ++ meta.removeAttribute "TAGS" :: post,
    (((spm.setAttribute "preset_file_path" path).setAttribute "preset_file_name"
      name).setAttribute "preset_file_pack" pack).setAttribute "preset_file_uid" uuid,
    ?_, ?_, ?_, h3, rfl,
    (XmlElement.hasTagName_of_getChildByName hspm :
      spm.hasTagName J.toUpperCase "session_preset_meta" = true),
    ?_, ?_, ?_, ?_, ?_, ?_, rfl⟩
  · rw [load_eq_of_success hfe hp hst hsi hspm hm]
  · rw [load_eq_of_success hfe hp hst hsi hspm hm]
  · simp [h1]
  · rw [XmlElement.getStringAttribute_setAttribute_other _ _ (by decide),
      XmlElement.getStringAttribute_setAttribute_other _ _ (by decide),
      XmlElement.getStringAttribute_setAttribute_other _ _ (by decide),
      XmlElement.getStringAttribute_setAttribute_same]
  · rw [XmlElement.getStringAttribute_setAttribute_other _ _ (by decide),
      XmlElement.getStringAttribute_setAttribute_other _ _ (by decide),
      XmlElement.getStringAttribute_setAttribute_same]
  · rw [XmlElement.getStringAttribute_setAttribute_other _ _ (by decide),
      XmlElement.getStringAttribute_setAttribute_same]
  · rw [XmlElement.getStringAttribute_setAttribute_same]
  · intro k hk
    simp only [presetFileAttributes, List.mem_cons, List.mem_singleton, List.not_mem_nil,
      or_false] at hk
    rcases hk with rfl | rfl | rfl | rfl
    · rw [XmlElement.countAttribute_setAttribute_other _ _ (by decide),
        XmlElement.countAttribute_setAttribute_other _ _ (by decide),
        XmlElement.countAttribute_setAttribute_other _ _ (by decide),
        XmlElement.countAttribute_setAttribute_same]
    · rw [XmlElement.countAttribute_setAttribute_other _ _ (by decide),
        XmlElement.countAttribute_setAttribute_other _ _ (by decide),
        XmlElement.countAttribute_setAttribute_same,
        XmlElement.countAttribute_setAttribute_other _ _ (by decide)]
    · rw [XmlElement.countAttribute_setAttribute_other _ _ (by decide),
        XmlElement.countAttribute_setAttribute_same,
        XmlElement.countAttribute_setAttribute_other _ _ (by decide),
        XmlElement.countAttribute_setAttribute_other _ _ (by decide)]
    · rw [XmlElement.countAttribute_setAttribute_same,
        XmlElement.countAttribute_setAttribute_other _ _ (by decide),
        XmlElement.countAttribute_setAttribute_other _ _ (by decide),
        XmlElement.countAttribute_setAttribute_other _ _ (by decide)]
  · simp only [XmlElement.attributes_setAttribute]
    rw [XmlElement.filter_setAttributeList _ (fun _ => by simp [presetFileAttributes]),
      XmlElement.filter_setAttributeList _ (fun _ => by simp [presetFileAttributes]),
      XmlElement.filter_setAttributeList _ (fun _ => by simp [presetFileAttributes]),
      XmlElement.filter_setAttributeList _ (fun _ => by simp [presetFileAttributes])]

set_option maxRecDepth 1000000 in
/-- The amended C2 on the example: preset `lead.xml` loaded with name `Lead`, uuid `u-1`
and pack `Pack` into the example plugin. -/
theorem loadPreset_sets_preset_file_attributes_witness :
    ∃ inner kept written,
      ((Example.current Example.currentState).loadMinimalAudioCurrentPreset Example.env
        Example.plugin "lead.xml" "Lead" "u-1" "Pack").outcome = .returned ∧
      ((Example.current Example.currentState).loadMinimalAudioCurrentPreset Example.env
        Example.plugin "lead.xml" "Lead" "u-1" "Pack").calls =
        [.getState, .setState (encodeState Example.env inner)] ∧
      kept.length = Example.preset.children.length ∧
      inner.children = kept ++ [Example.sessionInfo, written] ∧
      written.tagName = Example.sessionPresetMeta.tagName ∧
      written.hasTagName Example.env.toUpperCase "session_preset_meta" = true ∧
      written.getStringAttribute "preset_file_path" = "lead.xml" ∧
      written.getStringAttribute "preset_file_name" = "Lead" ∧
      written.getStringAttribute "preset_file_pack" = "Pack" ∧
      written.getStringAttribute "preset_file_uid" = "u-1" ∧
      (∀ k ∈ presetFileAttributes,
        written.countAttribute k = max 1 (Example.sessionPresetMeta.countAttribute k)) ∧
      written.attributes.filter (fun a => !presetFileAttributes.contains a.1) =
        Example.sessionPresetMeta.attributes.filter
          (fun a => !presetFileAttributes.contains a.1) ∧
      written.children = Example.sessionPresetMeta.children :=
  loadPreset_sets_preset_file_attributes Example.env Example.plugin
    (Example.current Example.currentState) "lead.xml" "Lead" "u-1" "Pack"
    Example.preset Example.currentState Example.sessionInfo Example.sessionPresetMeta
    Example.firstMeta (by decide) (by rfl) (by rfl) (by rfl) (by rfl) (by rfl)

set_option maxRecDepth 1000000 in
/-- C2 fails as stated, in two ways.  With the live children `SessionInfo`,
`SESSION_PRESET_META`, `session_preset_meta` (in this order) the call returns and the
state it wrote has no child named `session_preset_meta`: the node that received the four
attributes is the one spelled `SESSION_PRESET_META`, and the attribute `rating = 1` of
the live `session_preset_meta` is nowhere in it.  And with a live `session_preset_meta`
that carries `preset_file_path` twice the call returns and the written node still
carries it twice. -/
theorem loadPreset_session_preset_meta_other_node :
    (((Example.current Example.currentStateUpperMeta).loadMinimalAudioCurrentPreset
        Example.env Example.plugin "lead.xml" "Lead" "u-1" "Pack").outcome = .returned ∧
      (decodeState Example.env
        ((Example.current Example.currentStateUpperMeta).loadMinimalAudioCurrentPreset
          Example.env Example.plugin "lead.xml" "Lead" "u-1"
          "Pack").self.pluginInstance).map
        (fun inner => inner.children.map (fun c => c.tagName)) =
        some ["Meta", "Osc", "Meta", "SessionInfo", "SESSION_PRESET_META"] ∧
      (decodeState Example.env
        ((Example.current Example.currentStateUpperMeta).loadMinimalAudioCurrentPreset
          Example.env Example.plugin "lead.xml" "Lead" "u-1"
          "Pack").self.pluginInstance).map
        (fun inner => (inner.children.drop 4).map (fun c => c.attributes)) =
        some [[("rating", "5"), ("preset_file_path", "lead.xml"),
          ("preset_file_name", "Lead"), ("preset_file_pack", "Pack"),
          ("preset_file_uid", "u-1")]]) ∧
    (((Example.current Example.currentStateTwoPaths).loadMinimalAudioCurrentPreset
        Example.env Example.plugin "lead.xml" "Lead" "u-1" "Pack").outcome = .returned ∧
      (decodeState Example.env
        ((Example.current Example.currentStateTwoPaths).loadMinimalAudioCurrentPreset
          Example.env Example.plugin "lead.xml" "Lead" "u-1"
          "Pack").self.pluginInstance).map
        (fun inner => (inner.children.drop 4).map
          (fun c => (c.attributes, c.countAttribute "preset_file_path"))) =
        some [([("preset_file_path", "lead.xml"), ("preset_file_path", "b"),
          ("preset_file_name", "Lead"), ("preset_file_pack", "Pack"),
          ("preset_file_uid", "u-1")], 2)]) := by
  decide

/-! ## Missing nodes in the live state -/

/-- C3, as amended. For a preset file that exists and parses, with "has a child X"
meaning that the lookup of X finds one, that is, that some child has a tag name equal to
X up to letter case: a live state whose outer element has no child `IComponent` gives the
runtime error of the `IComponent` check; an inner state without `SessionInfo` gives the
`sessionInfoXml` error, whether or not `session_preset_meta` is there; an inner state
with `SessionInfo` and without `session_preset_meta` gives the `sessionPresetMeta` error;
and when all three nodes are found no runtime error is raised at all. -/
theorem loadPreset_missing_node_errors {β π : Type} (J : Juce β) (P : PluginApi β π)
    (self : Current π) (path name uuid pack : String) (presetXml : XmlElement)
    (hfe : J.fileExists path = true) (hp : J.parseXML path = some presetXml) :
    (∀ vst3State,
      J.getXmlFromBinary (P.getStateInformation self.pluginInstance) = some vst3State →
      vst3State.getChildByName J.toUpperCase "IComponent" = none →
      (self.loadMinimalAudioCurrentPreset J P path name uuid pack).outcome =
        .runtimeError "Unexpected VST3 state structure (IComponent).") ∧
    (∀ currentState,
      decodeState J (P.getStateInformation self.pluginInstance) = some currentState →
      (currentState.getChildByName J.toUpperCase "SessionInfo" = none →
        (self.loadMinimalAudioCurrentPreset J P path name uuid pack).outcome =
          .runtimeError
            "Error when loading Minimal Audio Current preset: No sessionInfoXml") ∧
      (currentState.getChildByName J.toUpperCase "SessionInfo" ≠ none →
        currentState.getChildByName J.toUpperCase "session_preset_meta" = none →
        (self.loadMinimalAudioCurrentPreset J P path name uuid pack).outcome =
          .runtimeError
            "Error when loading Minimal Audio Current preset: No sessionPresetMeta") ∧
      (currentState.getChildByName J.toUpperCase "SessionInfo" ≠ none →
        currentState.getChildByName J.toUpperCase "session_preset_meta" ≠ none →
        ∀ what, (self.loadMinimalAudioCurrentPreset J P path name uuid pack).outcome ≠
          .runtimeError what)) := by
  refine ⟨?_, ?_⟩
  · intro vst3State hv hc
    simp [Current.loadMinimalAudioCurrentPreset, hfe, hp, hv, hc]
  · intro currentState hst
    obtain ⟨vst3State, comp, hv, hc, hs⟩ := decodeState_some hst
    refine ⟨?_, ?_, ?_⟩
    · intro hsi
      simp [Current.loadMinimalAudioCurrentPreset, hfe, hp, hv, hc, hs, hsi]
    · intro hsi hspm
      obtain ⟨si, hsi⟩ := Option.ne_none_iff_exists'.1 hsi
      simp [Current.loadMinimalAudioCurrentPreset, hfe, hp, hv, hc, hs, hsi, hspm]
    · intro hsi hspm what
      obtain ⟨si, hsi⟩ := Option.ne_none_iff_exists'.1 hsi
      obtain ⟨spm, hspm⟩ := Option.ne_none_iff_exists'.1 hspm
      cases hm : presetXml.getChildByName J.toUpperCase "Meta" with
      | none =>
        simp [Current.loadMinimalAudioCurrentPreset, hfe, hp, hv, hc, hs, hsi, hspm, hm]
      | some meta =>
        simp [Current.loadMinimalAudioCurrentPreset, hfe, hp, hv, hc, hs, hsi, hspm, hm]

set_option maxRecDepth 1000000 in
/-- The amended C3 on the example preset `lead.xml`: a plugin state without `IComponent`, an inner
state with neither session node, an inner state with `SessionInfo` only, and a complete
inner state. -/
theorem loadPreset_missing_node_errors_witness :
    ((Current.mk "Current.vst3" (Example.enc (XmlElement.mk "VST3PluginState" [] []))
      ).loadMinimalAudioCurrentPreset Example.env Example.plugin "lead.xml" "" "" ""
      ).outcome = .runtimeError "Unexpected VST3 state structure (IComponent)." ∧
    ((Example.current Example.currentStateBare).loadMinimalAudioCurrentPreset Example.env
      Example.plugin "lead.xml" "" "" "").outcome =
      .runtimeError "Error when loading Minimal Audio Current preset: No sessionInfoXml" ∧
    ((Example.current Example.currentStateNoMeta).loadMinimalAudioCurrentPreset Example.env
      Example.plugin "lead.xml" "" "" "").outcome =
      .runtimeError "Error when loading Minimal Audio Current preset: No sessionPresetMeta" ∧
    (∀ what, ((Example.current Example.currentState).loadMinimalAudioCurrentPreset
      Example.env Example.plugin "lead.xml" "" "" "").outcome ≠ .runtimeError what) :=
  ⟨(loadPreset_missing_node_errors Example.env Example.plugin
      (Current.mk "Current.vst3" (Example.enc (XmlElement.mk "VST3PluginState" [] [])))
      "lead.xml" "" "" "" Example.preset (by decide) (by rfl)).1
      (XmlElement.mk "VST3PluginState" [] []) (by rfl) (by rfl),
    ((loadPreset_missing_node_errors Example.env Example.plugin
      (Example.current Example.currentStateBare) "lead.xml" "" "" "" Example.preset
      (by decide) (by rfl)).2 Example.currentStateBare (by rfl)).1 (by rfl),
    ((loadPreset_missing_node_errors Example.env Example.plugin
      (Example.current Example.currentStateNoMeta) "lead.xml" "" "" "" Example.preset
      (by decide) (by rfl)).2 Example.currentStateNoMeta (by rfl)).2.1
      (Option.ne_none_iff_exists'.2 ⟨XmlElement.mk "SessionInfo" [] [], by rfl⟩) (by rfl),
    ((loadPreset_missing_node_errors Example.env Example.plugin
      (Example.current Example.currentState) "lead.xml" "" "" "" Example.preset
      (by decide) (by rfl)).2 Example.currentState (by rfl)).2.2
      (Option.ne_none_iff_exists'.2 ⟨Example.sessionInfo, by rfl⟩)
      (Option.ne_none_iff_exists'.2 ⟨Example.sessionPresetMeta, by rfl⟩)⟩

set_option maxRecDepth 1000000 in
/-- C3 fails as stated: a plugin state whose outer element has the single child
`icomponent` and whose inner element has the children `sessioninfo` and
`SESSION_PRESET_META` has no child named `IComponent`, none named `SessionInfo` and none
named `session_preset_meta`, yet the call on the preset `lead.xml` raises no error and
returns. -/
theorem loadPreset_other_case_nodes_no_error :
    (Example.env.getXmlFromBinary (Example.enc Example.vst3StateOtherCase)).map
      (fun outer => outer.children.map (fun c => c.tagName)) = some ["icomponent"] ∧
    (decodeState Example.env (Example.enc Example.vst3StateOtherCase)).map
      (fun inner => inner.children.map (fun c => c.tagName)) =
      some ["sessioninfo", "SESSION_PRESET_META"] ∧
    ((Current.mk "Current.vst3" (Example.enc Example.vst3StateOtherCase)
      ).loadMinimalAudioCurrentPreset Example.env Example.plugin "lead.xml" "" "" ""
      ).outcome = .returned := by
  decide

/-! ## A preset without `Meta` -/

set_option maxRecDepth 1000000 in
/-- C4 fails on the code: for the preset `nometa.xml`, whose root has no `Meta` child,
and a well-formed plugin state, the call throws nothing; it calls `removeAttribute`
through the null pointer that `getChildByName` returned, after having read the plugin
state. -/
theorem loadPreset_without_meta_null_dereference :
    (Example.current Example.currentState).loadMinimalAudioCurrentPreset Example.env
      Example.plugin "nometa.xml" "Lead" "u-1" "Pack" =
      ⟨.nullDereference, Example.current Example.currentState, [.getState]⟩ := by
  rfl

/-! ## Missing and corrupted preset files -/

/-- C5. When the preset file does not exist the call throws `std::invalid_argument`
with message `Preset file does not exists: ` followed by the path; when it exists and
does not parse the call throws `std::runtime_error` with message
`Preset file corrupted: ` followed by the path.  Both hold for every plugin and every
plugin state, the object is left as it was and no call is made on the plugin. -/
theorem loadPreset_file_errors {β π : Type} (J : Juce β) (P : PluginApi β π)
    (self : Current π) (path name uuid pack : String) :
    (J.fileExists path = false →
      self.loadMinimalAudioCurrentPreset J P path name uuid pack =
        ⟨.invalidArgument ("Preset file does not exists: " ++ path), self, []⟩) ∧
    (J.fileExists path = true → J.parseXML path = none →
      self.loadMinimalAudioCurrentPreset J P path name uuid pack =
        ⟨.runtimeError ("Preset file corrupted: " ++ path), self, []⟩) := by
  refine ⟨?_, ?_⟩
  · intro hfe
    simp [Current.loadMinimalAudioCurrentPreset, hfe]
  · intro hfe hp
    simp [Current.loadMinimalAudioCurrentPreset, hfe, hp]

set_option maxRecDepth 1000000 in
/-- C5 on the example: a path outside the file table and the file `broken.xml`, with a
plugin whose state is not even a state blob. -/
theorem loadPreset_file_errors_witness :
    (Current.mk "Current.vst3" ['x']).loadMinimalAudioCurrentPreset Example.env
      Example.plugin "missing.xml" "" "" "" =
      ⟨.invalidArgument "Preset file does not exists: missing.xml",
        Current.mk "Current.vst3" ['x'], []⟩ ∧
    (Current.mk "Current.vst3" ['x']).loadMinimalAudioCurrentPreset Example.env
      Example.plugin "broken.xml" "" "" "" =
      ⟨.runtimeError "Preset file corrupted: broken.xml",
        Current.mk "Current.vst3" ['x'], []⟩ :=
  ⟨(loadPreset_file_errors Example.env Example.plugin (Current.mk "Current.vst3" ['x'])
      "missing.xml" "" "" "").1 (by decide),
    (loadPreset_file_errors Example.env Example.plugin (Current.mk "Current.vst3" ['x'])
      "broken.xml" "" "" "").2 (by decide) (by rfl)⟩

/-! ## The plugin state is written once, at the end -/

/-- C6. Whenever the call throws (an invalid-argument or a runtime error), the object,
and with it the hosted plugin, is as before the call, no `setStateInformation` was
called, and the error is one of the seven the method raises; whenever the call returns,
the calls made on the plugin are one read followed by exactly one write, the write being
the last step, and the plugin afterwards is the plugin before with that block set. -/
theorem loadPreset_atomic {β π : Type} (J : Juce β) (P : PluginApi β π) (self : Current π)
    (path name uuid pack : String) :
    (∀ what,
      (self.loadMinimalAudioCurrentPreset J P path name uuid pack).outcome =
          .invalidArgument what ∨
        (self.loadMinimalAudioCurrentPreset J P path name uuid pack).outcome =
          .runtimeError what →
      (self.loadMinimalAudioCurrentPreset J P path name uuid pack).self = self ∧
      (∀ data, PluginCall.setState data ∉
        (self.loadMinimalAudioCurrentPreset J P path name uuid pack).calls) ∧
      (self.loadMinimalAudioCurrentPreset J P path name uuid pack).outcome ∈
        [Outcome.invalidArgument ("Preset file does not exists: " ++ path),
          Outcome.runtimeError ("Preset file corrupted: " ++ path),
          Outcome.runtimeError "Unexpected VST3 state structure.",
          Outcome.runtimeError "Unexpected VST3 state structure (IComponent).",
          Outcome.runtimeError "Could not read Current state.",
          Outcome.runtimeError
            "Error when loading Minimal Audio Current preset: No sessionInfoXml",
          Outcome.runtimeError
            "Error when loading Minimal Audio Current preset: No sessionPresetMeta"]) ∧
    ((self.loadMinimalAudioCurrentPreset J P path name uuid pack).outcome = .returned →
      ∃ data,
        (self.loadMinimalAudioCurrentPreset J P path name uuid pack).calls =
          [.getState, .setState data] ∧
        (self.loadMinimalAudioCurrentPreset J P path name uuid pack).self =
          Current.mk self.pluginPath (P.setStateInformation self.pluginInstance data)) := by
  rcases load_cases J P self path name uuid pack with ⟨o, calls, ho, hcalls, hrun⟩ | ⟨data, hrun⟩
  · rw [hrun]
    refine ⟨?_, ?_⟩
    · intro what hwhat
      refine ⟨rfl, ?_, ?_⟩
      · intro data hmem
        rcases hcalls with rfl | rfl <;> simp at hmem
      · simp only [List.mem_cons, List.mem_singleton, List.not_mem_nil, or_false] at ho ⊢
        have hthrown : o ≠ Outcome.nullDereference := by
          rintro rfl
          rcases hwhat with h | h <;> simp at h
        tauto
    · intro hret
      simp only [List.mem_cons, List.mem_singleton, List.not_mem_nil, or_false] at ho
      simp only at hret
      subst hret
      simp at ho
  · rw [hrun]
    refine ⟨?_, ?_⟩
    · intro what hwhat
      rcases hwhat with h | h <;> simp at h
    · intro _
      exact ⟨data, rfl, rfl⟩

set_option maxRecDepth 1000000 in
/-- C6 on the example: the call on `lead.xml` with an inner state that lacks
`session_preset_meta` throws and leaves the object alone; the call with the complete
inner state returns after one read and one write. -/
theorem loadPreset_atomic_witness :
    (((Example.current Example.currentStateNoMeta).loadMinimalAudioCurrentPreset
        Example.env Example.plugin "lead.xml" "" "" "").self =
        Example.current Example.currentStateNoMeta ∧
      (∀ data, PluginCall.setState data ∉
        ((Example.current Example.currentStateNoMeta).loadMinimalAudioCurrentPreset
          Example.env Example.plugin "lead.xml" "" "" "").calls) ∧
      ((Example.current Example.currentStateNoMeta).loadMinimalAudioCurrentPreset
        Example.env Example.plugin "lead.xml" "" "" "").outcome ∈
        [Outcome.invalidArgument ("Preset file does not exists: " ++ "lead.xml"),
          Outcome.runtimeError ("Preset file corrupted: " ++ "lead.xml"),
          Outcome.runtimeError "Unexpected VST3 state structure.",
          Outcome.runtimeError "Unexpected VST3 state structure (IComponent).",
          Outcome.runtimeError "Could not read Current state.",
          Outcome.runtimeError
            "Error when loading Minimal Audio Current preset: No sessionInfoXml",
          Outcome.runtimeError
            "Error when loading Minimal Audio Current preset: No sessionPresetMeta"]) ∧
    (∃ data,
      ((Example.current Example.currentState).loadMinimalAudioCurrentPreset Example.env
        Example.plugin "lead.xml" "" "" "").calls = [.getState, .setState data] ∧
      ((Example.current Example.currentState).loadMinimalAudioCurrentPreset Example.env
        Example.plugin "lead.xml" "" "" "").self =
        Current.mk "Current.vst3"
          (Example.plugin.setStateInformation
            (Example.current Example.currentState).pluginInstance data)) :=
  ⟨(loadPreset_atomic Example.env Example.plugin
      (Example.current Example.currentStateNoMeta) "lead.xml" "" "" "").1
      "Error when loading Minimal Audio Current preset: No sessionPresetMeta"
      (Or.inr (by decide)),
    (loadPreset_atomic Example.env Example.plugin (Example.current Example.currentState)
      "lead.xml" "" "" "").2 (by decide)⟩

/-! ## `acceptsAudioInput` -/

/-- C7. `acceptsAudioInput` is false for every `Current` object, whatever plugin it
hosts, and also for the object that any call of `loadMinimalAudioCurrentPreset` leaves
behind. -/
theorem acceptsAudioInput_false {β π : Type} (self : Current π) (J : Juce β)
    (P : PluginApi β π) (path name uuid pack : String) :
    self.acceptsAudioInput = false ∧
    (self.loadMinimalAudioCurrentPreset J P path name uuid pack).self.acceptsAudioInput =
      false :=
  ⟨rfl, rfl⟩


/-! ## What happens to the preset content -/

/-- C8, as amended. When the call succeeds, the written inner XML has the tag name and
the attributes of the preset root; its children before the two appended ones are the
children of the preset root in the same order, all unchanged except the one that the
lookup of `Meta` finds (the first child whose tag name equals `Meta` up to letter case);
that child keeps its tag name, its children and its attributes with names other than
`TAGS`, in their order; it is unchanged when it had no `TAGS` attribute, and otherwise
its attribute list is the former one with the first `TAGS` node taken out, so that it
has no `TAGS` attribute when it had at most one; the children after it, whatever their
names, are unchanged. -/
theorem loadPreset_preset_frame {β π : Type} (J : Juce β) (P : PluginApi β π)
    (self : Current π) (path name uuid pack : String)
    (presetXml currentState si spm meta : XmlElement)
    (hfe : J.fileExists path = true) (hp : J.parseXML path = some presetXml)
    (hst : decodeState J (P.getStateInformation self.pluginInstance) = some currentState)
    (hsi : currentState.getChildByName J.toUpperCase "SessionInfo" = some si)
    (hspm : currentState.getChildByName J.toUpperCase "session_preset_meta" = some spm)
    (hm : presetXml.getChildByName J.toUpperCase "Meta" = some meta) :
    ∃ inner pre post written appended,
      (self.loadMinimalAudioCurrentPreset J P path name uuid pack).outcome = .returned ∧
      (self.loadMinimalAudioCurrentPreset J P path name uuid pack).calls =
        [.getState, .setState (encodeState J inner)] ∧
      inner.tagName = presetXml.tagName ∧ inner.attributes = presetXml.attributes ∧
      presetXml.children = pre ++ meta :: post ∧
      (∀ c ∈ pre, c.hasTagName J.toUpperCase "Meta" = false) ∧
      meta.hasTagName J.toUpperCase "Meta" = true ∧
      inner.children = (pre ++ written :: post) ++ [si, appended] ∧
      written.tagName = meta.tagName ∧ written.children = meta.children ∧
      written.attributes.filter (fun a => a.1 != "TAGS") =
        meta.attributes.filter (fun a => a.1 != "TAGS") ∧
      ((meta.countAttribute "TAGS" = 0 ∧ written = meta) ∨
        ∃ before value after, meta.attributes = before ++ ("TAGS", value) :: after ∧
          (∀ a ∈ before, a.1 ≠ "TAGS") ∧ written.attributes = before ++ after) ∧
      written.countAttribute "TAGS" = meta.countAttribute "TAGS" - 1 := by
  obtain ⟨pre, post, h1, h2, h3⟩ :=
    children_presetXmlAtEncoding si spm path name uuid pack hm
  refine ⟨presetXmlAtEncoding J.toUpperCase presetXml si spm path name uuid pack, pre, post,
    meta.removeAttribute "TAGS",
    (((spm.setAttribute "preset_file_path" path).setAttribute "preset_file_name"
      name).setAttribute "preset_file_pack" pack).setAttribute "preset_file_uid" uuid,
    ?_, ?_, rfl, rfl, h1, h2, XmlElement.hasTagName_of_getChildByName hm, h3, rfl, rfl,
    ?_, ?_, ?_⟩
  · rw [load_eq_of_success hfe hp hst hsi hspm hm]
  · rw [load_eq_of_success hfe hp hst hsi hspm hm]
  · exact XmlElement.filter_removeAttributeList (fun _ => by simp) _
  · rcases XmlElement.removeAttributeList_cases "TAGS" meta.attributes with
      ⟨h0, hl⟩ | ⟨before, value, after, hl1, hl2, hl3⟩
    · left
      refine ⟨h0, ?_⟩
      rw [XmlElement.removeAttribute, hl, XmlElement.mk_eta]
    · right
      exact ⟨before, value, after, hl1, hl2, hl3⟩
  · exact XmlElement.countP_removeAttributeList _ _

set_option maxRecDepth 1000000 in
/-- The amended C8 on the example: preset `lead.xml`, whose first `Meta` has one `TAGS`
attribute and whose last child is a second tagged `Meta`. -/
theorem loadPreset_preset_frame_witness :
    ∃ inner pre post written appended,
      ((Example.current Example.currentState).loadMinimalAudioCurrentPreset Example.env
        Example.plugin "lead.xml" "Lead" "u-1" "Pack").outcome = .returned ∧
      ((Example.current Example.currentState).loadMinimalAudioCurrentPreset Example.env
        Example.plugin "lead.xml" "Lead" "u-1" "Pack").calls =
        [.getState, .setState (encodeState Example.env inner)] ∧
      inner.tagName = Example.preset.tagName ∧
      inner.attributes = Example.preset.attributes ∧
      Example.preset.children = pre ++ Example.firstMeta :: post ∧
      (∀ c ∈ pre, c.hasTagName Example.env.toUpperCase "Meta" = false) ∧
      Example.firstMeta.hasTagName Example.env.toUpperCase "Meta" = true ∧
      inner.children = (pre ++ written :: post) ++ [Example.sessionInfo, appended] ∧
      written.tagName = Example.firstMeta.tagName ∧
      written.children = Example.firstMeta.children ∧
      written.attributes.filter (fun a => a.1 != "TAGS") =
        Example.firstMeta.attributes.filter (fun a => a.1 != "TAGS") ∧
      ((Example.firstMeta.countAttribute "TAGS" = 0 ∧ written = Example.firstMeta) ∨
        ∃ before value after,
          Example.firstMeta.attributes = before ++ ("TAGS", value) :: after ∧
          (∀ a ∈ before, a.1 ≠ "TAGS") ∧ written.attributes = before ++ after) ∧
      written.countAttribute "TAGS" = Example.firstMeta.countAttribute "TAGS" - 1 :=
  loadPreset_preset_frame Example.env Example.plugin
    (Example.current Example.currentState) "lead.xml" "Lead" "u-1" "Pack"
    Example.preset Example.currentState Example.sessionInfo Example.sessionPresetMeta
    Example.firstMeta (by decide) (by rfl) (by rfl) (by rfl) (by rfl) (by rfl)

set_option maxRecDepth 1000000 in
/-- C8 fails as stated: for the preset `lowermeta.xml`, whose children are a tagged
`meta` followed by a tagged `Meta`, the call returns and, in the state it wrote, the
first child named `Meta` still has its `TAGS` attribute while the child `meta`, which is
not named `Meta`, has lost its own. -/
theorem loadPreset_meta_other_case_child :
    Example.presetLowerMeta.children.map (fun c => (c.tagName, c.attributes)) =
      [("meta", [("TAGS", "a")]), ("Meta", [("TAGS", "b")])] ∧
    ((Example.current Example.currentState).loadMinimalAudioCurrentPreset Example.env
      Example.plugin "lowermeta.xml" "Lead" "u-1" "Pack").outcome = .returned ∧
    (decodeState Example.env
      ((Example.current Example.currentState).loadMinimalAudioCurrentPreset Example.env
        Example.plugin "lowermeta.xml" "Lead" "u-1" "Pack").self.pluginInstance).map
      (fun inner => (inner.children.take 2).map (fun c => (c.tagName, c.attributes))) =
      some [("meta", []), ("Meta", [("TAGS", "b")])] := by
  decide

/-! ## The written state can be read back -/

/-- C9, as amended. Given that each decoder inverts its encoder, the blob written by a
successful call is the binary encoding of an element `VST3PluginState` with exactly one
child, `IComponent`, whose text is the base64 encoding of the binary encoding of the new
inner XML; reading it back by the steps the method uses to read state gives exactly that
inner XML, and on that inner XML the lookups of `SessionInfo` and of
`session_preset_meta` both find a child, that is, it has a child whose tag name equals
`SessionInfo` up to letter case and one whose tag name equals `session_preset_meta` up to
letter case. -/
theorem loadPreset_written_state_readable {β π : Type} (J : Juce β) (P : PluginApi β π)
    (self : Current π) (path name uuid pack : String)
    (hJ : J.DecodersInvertEncoders)
    (hret : (self.loadMinimalAudioCurrentPreset J P path name uuid pack).outcome =
      .returned) :
    ∃ inner outer comp,
      (self.loadMinimalAudioCurrentPreset J P path name uuid pack).calls =
        [.getState, .setState (J.copyXmlToBinary outer)] ∧
      outer.tagName = "VST3PluginState" ∧ outer.children = [comp] ∧
      comp.tagName = "IComponent" ∧
      comp.getAllSubText = J.toBase64Encoding (J.copyXmlToBinary inner) ∧
      decodeState J (J.copyXmlToBinary outer) = some inner ∧
      (∃ c ∈ inner.children, c.hasTagName J.toUpperCase "SessionInfo" = true) ∧
      (∃ c ∈ inner.children, c.hasTagName J.toUpperCase "session_preset_meta" = true) ∧
      (inner.getChildByName J.toUpperCase "SessionInfo").isSome = true ∧
      (inner.getChildByName J.toUpperCase "session_preset_meta").isSome = true := by
  obtain ⟨presetXml, vst3State, comp, currentState, si, spm, meta, hfe, hp, hv, hc, hs,
    hsi, hspm, hm⟩ := load_returned hret
  have hsiName := XmlElement.hasTagName_of_getChildByName hsi
  have hspmName : ((((spm.setAttribute "preset_file_path" path).setAttribute
      "preset_file_name" name).setAttribute "preset_file_pack" pack).setAttribute
      "preset_file_uid" uuid).hasTagName J.toUpperCase "session_preset_meta" = true :=
    (XmlElement.hasTagName_of_getChildByName hspm :
      spm.hasTagName J.toUpperCase "session_preset_meta" = true)
  have hmemSi : si ∈
      (presetXmlAtEncoding J.toUpperCase presetXml si spm path name uuid pack).children := by
    simp [presetXmlAtEncoding, XmlElement.children_addChildElement]
  have hmemSpm : (((spm.setAttribute "preset_file_path" path).setAttribute
      "preset_file_name" name).setAttribute "preset_file_pack" pack).setAttribute
      "preset_file_uid" uuid ∈
      (presetXmlAtEncoding J.toUpperCase presetXml si spm path name uuid pack).children := by
    simp [presetXmlAtEncoding, XmlElement.children_addChildElement]
  refine ⟨presetXmlAtEncoding J.toUpperCase presetXml si spm path name uuid pack,
    finalXML (J.toBase64Encoding (J.copyXmlToBinary
      (presetXmlAtEncoding J.toUpperCase presetXml si spm path name uuid pack))),
    XmlElement.mk "IComponent" [] [XmlElement.createTextElement (J.toBase64Encoding
      (J.copyXmlToBinary
        (presetXmlAtEncoding J.toUpperCase presetXml si spm path name uuid pack)))],
    ?_, rfl, rfl, rfl, XmlElement.getAllSubText_component _,
    decodeState_encodeState hJ _, ⟨si, hmemSi, hsiName⟩, ⟨_, hmemSpm, hspmName⟩, ?_, ?_⟩
  · rw [load_eq_of_all_found hfe hp hv hc hs hsi hspm hm]
    rfl
  · rw [XmlElement.getChildByName, List.find?_isSome]
    exact ⟨si, hmemSi, hsiName⟩
  · rw [XmlElement.getChildByName, List.find?_isSome]
    exact ⟨_, hmemSpm, hspmName⟩

set_option maxRecDepth 1000000 in
/-- The amended C9 on the example, whose codec inverts itself: preset `lead.xml` loaded
into the example plugin. -/
theorem loadPreset_written_state_readable_witness :
    ∃ inner outer comp,
      ((Example.current Example.currentState).loadMinimalAudioCurrentPreset Example.env
        Example.plugin "lead.xml" "Lead" "u-1" "Pack").calls =
        [.getState, .setState (Example.env.copyXmlToBinary outer)] ∧
      outer.tagName = "VST3PluginState" ∧ outer.children = [comp] ∧
      comp.tagName = "IComponent" ∧
      comp.getAllSubText =
        Example.env.toBase64Encoding (Example.env.copyXmlToBinary inner) ∧
      decodeState Example.env (Example.env.copyXmlToBinary outer) = some inner ∧
      (∃ c ∈ inner.children,
        c.hasTagName Example.env.toUpperCase "SessionInfo" = true) ∧
      (∃ c ∈ inner.children,
        c.hasTagName Example.env.toUpperCase "session_preset_meta" = true) ∧
      (inner.getChildByName Example.env.toUpperCase "SessionInfo").isSome = true ∧
      (inner.getChildByName Example.env.toUpperCase "session_preset_meta").isSome = true :=
  loadPreset_written_state_readable Example.env Example.plugin
    (Example.current Example.currentState) "lead.xml" "Lead" "u-1" "Pack"
    (Example.juce_decodersInvertEncoders Example.files) (by decide)

set_option maxRecDepth 1000000 in
/-- C9 fails as stated: with the example codec, which inverts itself, and a live state
whose children are spelled `sessioninfo` and `SESSION_PRESET_META`, the call on
`lead.xml` returns, and the inner XML read back from the state it wrote has no child
named `SessionInfo` and none named `session_preset_meta`. -/
theorem loadPreset_written_state_other_case :
    ((Example.current Example.currentStateOtherCase).loadMinimalAudioCurrentPreset
      Example.env Example.plugin "lead.xml" "Lead" "u-1" "Pack").outcome = .returned ∧
    (decodeState Example.env
      ((Example.current Example.currentStateOtherCase).loadMinimalAudioCurrentPreset
        Example.env Example.plugin "lead.xml" "Lead" "u-1"
        "Pack").self.pluginInstance).map
      (fun inner => inner.children.map (fun c => c.tagName)) =
      some ["Meta", "Osc", "Meta", "sessioninfo", "SESSION_PRESET_META"] := by
  decide

/-! ## Loading twice -/

end Pedalboard
